import Mathlib

/-!
Verification development for the task-oriented-dialogue (TOD) slot-filling
controller in src/strategies/tod.py.  The per-turn control flow of
TaskOrientedDialogueStrategy._invoke is embedded as the pure function
invoke below; the two LLM oracles (answer validation, answer extraction)
and the key-value storage are modelled as explicit inputs, and the
observable behaviour of one turn (new dialogue state, emitted text
messages, which oracles were called, storage effects, raised exceptions)
is collected in a TurnResult record.
-/

/-- ASCII lower-casing of one character, modelling Python str.lower for the
ASCII inputs the controller compares against. -/
def pyLowerChar (c : Char) : Char :=
  if 65 ≤ c.toNat && c.toNat ≤ 90 then Char.ofNat (c.toNat + 32) else c

/-- Model of Python str.lower (ASCII range). -/
def pyLower (s : String) : String := ⟨s.data.map pyLowerChar⟩

/-- The whitespace characters stripped by Python str.strip (ASCII range). -/
def isPyWS (c : Char) : Bool :=
  c == ' ' || c == '\t' || c == '\n' || c == '\r' || c == '\x0b' || c == '\x0c'

/-- Model of Python str.strip with no argument: drop leading and trailing
whitespace. -/
def pyStrip (s : String) : String :=
  ⟨((s.data.dropWhile isPyWS).reverse.dropWhile isPyWS).reverse⟩

/-- Model of Python str.startswith. -/
def pyStartsWith (s pre : String) : Bool := pre.data.isPrefixOf s.data

/-- Containment of the character list p somewhere inside l. -/
def listContains (p : List Char) : List Char → Bool
  | [] => p.isEmpty
  | c :: t => p.isPrefixOf (c :: t) || listContains p t

/-- Model of the Python expression pat in s on strings. -/
def pyIn (pat s : String) : Bool := listContains pat.data s.data

/-- Python truthiness of an Optional[str]: None and the empty string are
falsy, every other string is truthy. -/
def pyTruthy : Option String → Bool
  | none => false
  | some s => !(s == "")

/-- Modelled from the spec: src/strategies/models.py is imported by
src/strategies/tod.py but is not part of the snapshot.  Per spec section 3,
a Field has a stable name, a question, a required flag, and an optional
collected value where the sentinel "refused" marks an explicit refusal. -/
structure DialogueField where
  name : String
  question : String
  required : Bool := true
  value : Option String := none
deriving Repr, DecidableEq

/-- Modelled from the spec: the DialogueState record of
src/strategies/models.py.  Per spec section 3 it holds the ordered field
list, the index of the next field to ask about, and the three lifecycle
flags, with the defaults used by _init_dialogue_state. -/
structure DialogueState where
  fields : List DialogueField
  current_field_index : Nat := 0
  confirmation_requested : Bool := false
  confirmed : Bool := false
  completed : Bool := false
deriving Repr, DecidableEq

/-- The positive confirmation markers of tod.py line 159. -/
def positive_markers : List String :=
  ["yes", "y", "ok", "okay", "confirm", "confirmed", "correct"]

/-- The negative confirmation markers of tod.py line 160. -/
def negative_markers : List String :=
  ["no", "n", "change", "edit", "modify", "incorrect", "not correct", "wrong"]

/-- One marker matches iff it equals the whole (stripped, lowered) utterance
or the utterance starts with the marker followed by a space
(tod.py lines 161 and 163). -/
def markerMatch (q m : String) : Bool := m == q || pyStartsWith q (m ++ " ")

/-- Whether some positive marker matches. -/
def posMatch (q : String) : Bool := positive_markers.any (markerMatch q)

/-- Whether some negative marker matches. -/
def negMatch (q : String) : Bool := negative_markers.any (markerMatch q)

/-- The first-turn intent keywords of tod.py line 359. -/
def intent_keywords : List String :=
  ["contact", "be contacted", "reach out", "get in touch", "follow up",
   "call me", "email me"]

/-- Whether the lowered utterance contains one of the intent keywords
(tod.py line 362). -/
def intentMatch (q : String) : Bool := intent_keywords.any (fun k => pyIn k q)

/-- _is_valid_answer of tod.py lines 675-683: a response is valid unless it
starts with the INVALID: tag. -/
def is_valid_answer (model_response : String) : Bool :=
  !(pyStartsWith model_response "INVALID:")

/-- Everything after the first pre.length characters, modelling
s.split(pre, 1)[1] under the assumption s.startswith(pre). -/
def pyDropPre (s pre : String) : String := ⟨s.data.drop pre.data.length⟩

/-- Dictionary lookup in the extraction result, modelled as first-match
association lookup (JSON object keys are unique). -/
def lookupVal (ex : List (String × String)) (name : String) : Option String :=
  match ex.find? (fun p => p.1 == name) with
  | some p => some p.2
  | none => none

/-- tod.py line 404: a field receives a staged update iff its name is a key
of the extraction result and the bound value is truthy. -/
def hasUpd (ex : List (String × String)) (f : DialogueField) : Bool :=
  match lookupVal ex f.name with
  | some v => !(v == "")
  | none => false

/-- tod.py lines 400-412: apply every staged update to the field list. -/
def applyExtraction (fs : List DialogueField) (ex : List (String × String)) :
    List DialogueField :=
  fs.map fun f => if hasUpd ex f then { f with value := lookupVal ex f.name } else f

/-- tod.py lines 414-418: the index of the first field whose value is None
or the empty string, or the length of the list when every field holds a
non-empty value. -/
def next_field_index : List DialogueField → Nat
  | [] => 0
  | f :: fs => if pyTruthy f.value then next_field_index fs + 1 else 0

/-- tod.py lines 243 and 613: all(f.value for f in fields). -/
def allTruthy (fs : List DialogueField) : Bool := fs.all fun f => pyTruthy f.value

/-- Python rendering of an Optional[str] inside an f-string. -/
def optStr : Option String → String
  | none => "None"
  | some s => s

/-- _generate_summary of tod.py lines 685-689: one line per field of
question, space, value, then strip. -/
def generate_summary (fs : List DialogueField) : String :=
  pyStrip ((fs.map fun f => f.question ++ " " ++ optStr f.value ++ "\n").foldl
    (fun a b => a ++ b) "")

/-- The ways a turn can raise: the unguarded list indexing of tod.py
line 283, or the unguarded storage delete of tod.py line 280. -/
inductive CrashKind where
  | indexError
  | deleteError
deriving Repr, DecidableEq

/-- The per-turn inputs: the user utterance, the content returned by the
understanding oracle, the parse of the extraction oracle reply (none when
it is not a JSON object), and whether the storage operations would raise. -/
structure TurnInput where
  query : String
  oracleResponse : String
  extracted : Option (List (String × String)) := none
  saveRaises : Bool := false
  deleteRaises : Bool := false
deriving Repr, DecidableEq

/-- The observable outcome of one turn: the dialogue state afterwards, the
text messages emitted (in order, up to the crash point if any), whether the
collected-data mapping was emitted, which oracles were invoked, how many
state saves were attempted, whether the stored state was deleted, and the
crash if one escaped.  _save_dialogue_state (tod.py lines 62-68) swallows
every exception, so a save attempt never produces a crash. -/
structure TurnResult where
  state : DialogueState
  outputs : List String
  emittedData : Bool
  calledValidation : Bool
  calledExtraction : Bool
  saves : Nat
  deleted : Bool
  crash : Option CrashKind
deriving Repr, DecidableEq

/-- tod.py line 167. -/
def modifyPrompt : String :=
  "Which field would you like to modify? Please reply with field name and new value."

/-- tod.py line 206. -/
def confirmPrompt : String :=
  "Please confirm if the collected information is correct (yes/no)."

/-- tod.py lines 427-430. -/
def reviewPrefix : String :=
  "Please review the collected information below. If everything is correct, reply 'yes' to confirm, or reply 'no' / indicate the field name with new value to modify.\n"

/-- tod.py line 246. -/
def completedPrefix : String := "InformationCollectionCompleted:\n"

/-- tod.py lines 316-610: the validate-then-extract phase, entered with the
current field in hand and a non-whitespace utterance. -/
def collectTurn (st : DialogueState) (inp : TurnInput) (cf : DialogueField) :
    TurnResult :=
  let isFirst := st.current_field_index == 0 &&
    !(st.fields.any fun f => pyTruthy f.value)
  let override := isFirst && intentMatch (pyLower inp.query)
  let content :=
    if override then
      "INVALID: User is expressing intent to be contacted, starting information collection"
    else inp.oracleResponse
  let isValid := if override then false else is_valid_answer inp.oracleResponse
  let ex := inp.extracted.getD []
  let saved := st.fields.any (hasUpd ex)
  if saved then
    let fields' := applyExtraction st.fields ex
    let idx' := next_field_index fields'
    let st' := { st with fields := fields', current_field_index := idx' }
    if fields'.length ≤ idx' then
      { state := { st' with confirmation_requested := true },
        outputs := [reviewPrefix ++ generate_summary fields'],
        emittedData := false, calledValidation := true, calledExtraction := true,
        saves := 3, deleted := false, crash := none }
    else
      { state := st',
        outputs := [(fields'.getD idx' cf).question],
        emittedData := false, calledValidation := true, calledExtraction := true,
        saves := 2, deleted := false, crash := none }
  else
    let reason :=
      if pyStartsWith content "INVALID:" then pyStrip (pyDropPre content "INVALID:")
      else "Answer is not clear enough"
    let message :=
      if !isValid then
        if isFirst && pyIn "expressing intent to be contacted" reason then
          "I understand you want to be contacted. To help you better, " ++ cf.question
        else if pyIn "greeting" reason || pyIn "small talk" (pyLower reason) then
          "Hello! " ++ cf.question
        else if pyIn "incomplete" reason || pyIn "unclear" (pyLower reason) then
          reason ++ ", please provide " ++ cf.question
        else if isFirst then
          "To get started, " ++ cf.question
        else
          reason ++ ", " ++ cf.question
      else
        "I didn't catch that clearly. " ++ cf.question
    { state := st, outputs := [message],
      emittedData := false, calledValidation := true, calledExtraction := true,
      saves := 1, deleted := false, crash := none }

/-- tod.py lines 242-610: the part of a turn after the pending-confirmation
branch, beginning with the finalize check of line 243, the unguarded field
access of line 283, and the empty-input short-circuit of line 285. -/
def afterConfirm (st : DialogueState) (inp : TurnInput) : TurnResult :=
  if st.confirmed && !st.completed && allTruthy st.fields then
    let st' := { st with completed := true }
    { state := st',
      outputs := [completedPrefix ++ generate_summary st'.fields],
      emittedData := true, calledValidation := false, calledExtraction := false,
      saves := 0, deleted := !inp.deleteRaises,
      crash := if inp.deleteRaises then some CrashKind.deleteError else none }
  else
    match st.fields.get? st.current_field_index with
    | none =>
      { state := st, outputs := [], emittedData := false,
        calledValidation := false, calledExtraction := false,
        saves := 0, deleted := false, crash := some CrashKind.indexError }
    | some cf =>
      if pyStrip inp.query == "" then
        { state := st, outputs := [cf.question], emittedData := false,
          calledValidation := false, calledExtraction := false,
          saves := 0, deleted := false, crash := none }
      else
        collectTurn st inp cf

/-- _invoke of tod.py from line 156: the pending-confirmation branch, then
the rest of the turn.  A positive confirmation marker sets confirmed and
falls through to the finalize check; a negative marker clears
confirmation_requested and asks which field to modify; anything else
re-prompts for an explicit yes/no. -/
def invoke (st : DialogueState) (inp : TurnInput) : TurnResult :=
  if st.confirmation_requested && !st.confirmed then
    let q := pyLower (pyStrip inp.query)
    if posMatch q then
      afterConfirm { st with confirmed := true } inp
    else if negMatch q then
      { state := { st with confirmation_requested := false, confirmed := false },
        outputs := [modifyPrompt], emittedData := false,
        calledValidation := false, calledExtraction := false,
        saves := 1, deleted := false, crash := none }
    else
      { state := st, outputs := [confirmPrompt], emittedData := false,
        calledValidation := false, calledExtraction := false,
        saves := 0, deleted := false, crash := none }
  else
    afterConfirm st inp

/-- A two-field schema used by the concrete scenarios of the spec. -/
def fName : DialogueField := { name := "name", question := "What is your name?" }

/-- The second field of the concrete schema. -/
def fPhone : DialogueField :=
  { name := "phone", question := "What is your contact number?" }

/-- Both fields satisfied, no lifecycle flag set: exactly the state reached
right after a negative confirmation (tod.py lines 163-203 clear
confirmation_requested and leave current_field_index at the field count). -/
def stCorrecting : DialogueState :=
  { fields := [{ fName with value := some "John" },
               { fPhone with value := some "13812345678" }],
    current_field_index := 2 }

/-- The awaiting-confirmation state: all fields satisfied, summary shown. -/
def stAwaiting : DialogueState := { stCorrecting with confirmation_requested := true }

/-- The state right after a positive confirmation, before finalization. -/
def stConfirmedPending : DialogueState :=
  { stAwaiting with confirmed := true }

/-- The finalized state: all three flags set, index at the field count. -/
def stDone : DialogueState := { stConfirmedPending with completed := true }

/-- A mid-collection state: first field satisfied, second outstanding. -/
def stHalf : DialogueState :=
  { fields := [{ fName with value := some "John" }, fPhone],
    current_field_index := 1 }

/-- A fresh state at the very first turn. -/
def stFresh : DialogueState := { fields := [fName, fPhone] }

/-- The direct-edit utterance of spec Scenario D. -/
def inpEdit : TurnInput :=
  { query := "phone: 13800000000", oracleResponse := "13800000000",
    extracted := some [("phone", "13800000000")] }

/-- A plain yes utterance. -/
def inpYes : TurnInput := { query := "yes", oracleResponse := "yes" }

/-- A plain no utterance. -/
def inpNo : TurnInput := { query := "no", oracleResponse := "no" }

/-- An unclassifiable confirmation reply. -/
def inpMaybe : TurnInput := { query := "maybe", oracleResponse := "maybe" }

/-- A yes utterance whose storage delete would raise. -/
def inpYesDel : TurnInput :=
  { query := "yes", oracleResponse := "yes", deleteRaises := true }

/-- An utterance whose extraction overwrites the already-collected name and
also fills the outstanding phone field. -/
def inpOverwrite : TurnInput :=
  { query := "Bob 999", oracleResponse := "Bob",
    extracted := some [("name", "Bob"), ("phone", "999")] }

/-- An utterance whose extraction fills both fields at once. -/
def inpBoth : TurnInput :=
  { query := "John, 13812345678", oracleResponse := "John, 13812345678",
    extracted := some [("name", "John"), ("phone", "13812345678")] }

/-- A whitespace-only utterance. -/
def inpBlank : TurnInput := { query := "  \t ", oracleResponse := "" }

/-- The first-turn intent-expression utterance of spec Scenario F, with the
oracle classifying it as valid and extraction returning nothing. -/
def inpIntent : TurnInput :=
  { query := "I want to be contacted", oracleResponse := "I want to be contacted",
    extracted := some [] }

/-- An answer classified INVALID whose extraction still returns the phone
value. -/
def inpInvalidButExtracted : TurnInput :=
  { query := "well 999 maybe", oracleResponse := "INVALID: Answer is irrelevant to the question",
    extracted := some [("phone", "999")] }

/-! ### Helper lemmas about the index recomputation -/

theorem next_field_index_le (fs : List DialogueField) :
    next_field_index fs ≤ fs.length := by
  induction fs with
  | nil => simp [next_field_index]
  | cons f t ih =>
    simp only [next_field_index, List.length_cons]
    split
    · omega
    · omega

theorem truthy_below_next_field_index (fs : List DialogueField) (j : Nat)
    (f : DialogueField) (hj : j < next_field_index fs) (hf : fs.get? j = some f) :
    pyTruthy f.value = true := by
  induction fs generalizing j with
  | nil => simp [next_field_index] at hj
  | cons a t ih =>
    simp only [next_field_index] at hj
    split at hj
    · cases j with
      | zero =>
        simp only [List.get?] at hf
        cases hf
        assumption
      | succ j' =>
        simp only [List.get?] at hf
        exact ih j' (by omega) hf
    · omega

theorem untruthy_at_next_field_index (fs : List DialogueField)
    (h : next_field_index fs < fs.length) :
    ∃ f, fs.get? (next_field_index fs) = some f ∧ pyTruthy f.value = false := by
  induction fs with
  | nil => simp [next_field_index] at h
  | cons a t ih =>
    simp only [next_field_index, List.length_cons] at h ⊢
    by_cases ha : pyTruthy a.value
    · simp only [ha, if_true] at h ⊢
      obtain ⟨f, hf, hv⟩ := ih (by omega)
      exact ⟨f, by simpa [List.get?] using hf, hv⟩
    · simp only [ha, if_false]
      exact ⟨a, by simp [List.get?], by simpa using ha⟩

theorem next_field_index_eq_length_iff (fs : List DialogueField) :
    next_field_index fs = fs.length ↔ allTruthy fs = true := by
  induction fs with
  | nil => simp [next_field_index, allTruthy]
  | cons a t ih =>
    simp only [next_field_index, allTruthy, List.all_cons, List.length_cons,
      Bool.and_eq_true]
    cases ha : pyTruthy a.value with
    | true =>
      simp only [if_true, true_and]
      have hstep : next_field_index t + 1 = t.length + 1 ↔
          next_field_index t = t.length := by omega
      rw [hstep, ih]
      simp [allTruthy]
    | false =>
      have hle := next_field_index_le t
      simp only [if_false, Bool.false_eq_true, false_and, iff_false]
      omega

/-! ### Structural lemmas about one turn -/

theorem collectTurn_oracles (st : DialogueState) (inp : TurnInput)
    (cf : DialogueField) :
    (collectTurn st inp cf).calledValidation = true ∧
    (collectTurn st inp cf).calledExtraction = true := by
  simp only [collectTurn]
  split
  · split <;> exact ⟨rfl, rfl⟩
  · exact ⟨rfl, rfl⟩

theorem collectTurn_saved (st : DialogueState) (inp : TurnInput)
    (cf : DialogueField)
    (h : st.fields.any (hasUpd (inp.extracted.getD [])) = true) :
    (collectTurn st inp cf).state.fields =
      applyExtraction st.fields (inp.extracted.getD []) ∧
    (collectTurn st inp cf).state.current_field_index =
      next_field_index (applyExtraction st.fields (inp.extracted.getD [])) := by
  simp only [collectTurn, h, if_true]
  split <;> exact ⟨rfl, rfl⟩

theorem collectTurn_not_saved (st : DialogueState) (inp : TurnInput)
    (cf : DialogueField)
    (h : st.fields.any (hasUpd (inp.extracted.getD [])) = false) :
    (collectTurn st inp cf).state = st := by
  simp only [collectTurn, h, Bool.false_eq_true, if_false]

theorem afterConfirm_confirmed (st : DialogueState) (inp : TurnInput) :
    (afterConfirm st inp).state.confirmed = st.confirmed := by
  simp only [afterConfirm]
  split
  · rfl
  · split
    · rfl
    · split
      · rfl
      · simp only [collectTurn]
        split
        · split <;> rfl
        · rfl

theorem invoke_fields_cases (st : DialogueState) (inp : TurnInput) :
    (invoke st inp).state.fields = st.fields ∨
    (invoke st inp).state.fields =
      applyExtraction st.fields (inp.extracted.getD []) := by
  have hAfter : ∀ st' : DialogueState, st'.fields = st.fields →
      (afterConfirm st' inp).state.fields = st.fields ∨
      (afterConfirm st' inp).state.fields =
        applyExtraction st.fields (inp.extracted.getD []) := by
    intro st' hf
    simp only [afterConfirm]
    split
    · exact Or.inl hf
    · split
      · exact Or.inl hf
      · split
        · exact Or.inl hf
        · simp only [collectTurn]
          split
          · split
            · exact Or.inr (by rw [← hf])
            · exact Or.inr (by rw [← hf])
          · exact Or.inl hf
  simp only [invoke]
  split
  · split
    · exact hAfter _ rfl
    · split
      · exact Or.inl rfl
      · exact Or.inl rfl
  · exact hAfter st rfl

theorem invoke_crash_delete (st : DialogueState) (inp : TurnInput)
    (h : (invoke st inp).crash = some CrashKind.deleteError) :
    inp.deleteRaises = true := by
  have hAfter : ∀ st' : DialogueState,
      (afterConfirm st' inp).crash = some CrashKind.deleteError →
      inp.deleteRaises = true := by
    intro st' h'
    simp only [afterConfirm] at h'
    split at h'
    · split at h'
      · assumption
      · simp at h'
    · split at h'
      · simp at h'
      · split at h'
        · simp at h'
        · simp only [collectTurn] at h'
          split at h'
          · split at h' <;> simp at h'
          · simp at h'
  simp only [invoke] at h
  split at h
  · split at h
    · exact hAfter _ h
    · split at h <;> simp at h
  · exact hAfter st h

/-! ### Claim theorems -/

/-- C1: in the state reached right after a negative confirmation (all
fields satisfied, neither confirmation_requested nor completed set, and
current_field_index equal to the number of fields as the flow guarantees),
the direct-edit turn "phone: 13800000000" does NOT reach the field-edit
parser of tod.py lines 612-673: the unguarded access
fields[current_field_index] at tod.py line 283 raises IndexError first, so
no field is overwritten, confirmation_requested stays false, and nothing
is emitted. -/
theorem C1_direct_edit_crashes :
    invoke stCorrecting inpEdit =
      { state := stCorrecting, outputs := [], emittedData := false,
        calledValidation := false, calledExtraction := false,
        saves := 0, deleted := false, crash := some CrashKind.indexError } := by
  decide

/-- C2 counterexample: with completed = true (the finalized state, whose
current_field_index equals the field count), replaying the utterance yes is
not crash-free: the turn raises IndexError at tod.py line 283, refuting the
claim that the turn does not fail. -/
theorem C2_counterexample :
    (invoke stDone inpYes).crash = some CrashKind.indexError := by
  decide

/-- C2 (amended): for every finalized state (completed and confirmed set,
current_field_index at or past the field count), a further turn performs no
state mutation, emits no message and no collected-data payload, attempts no
save and no second delete - but it does not return cleanly: it raises
IndexError at the unguarded field access of tod.py line 283. -/
theorem C2_completed_replay (st : DialogueState) (inp : TurnInput)
    (h1 : st.completed = true) (h2 : st.confirmed = true)
    (h3 : st.fields.length ≤ st.current_field_index) :
    (invoke st inp).state = st ∧ (invoke st inp).outputs = [] ∧
    (invoke st inp).emittedData = false ∧ (invoke st inp).deleted = false ∧
    (invoke st inp).saves = 0 ∧
    (invoke st inp).crash = some CrashKind.indexError := by
  have hcond : (st.confirmation_requested && !st.confirmed) = false := by
    rw [h2]; simp
  have hget : st.fields.get? st.current_field_index = none :=
    List.get?_eq_none.mpr h3
  simp only [invoke, hcond, Bool.false_eq_true, if_false, afterConfirm, h1,
    Bool.not_true, Bool.and_false, Bool.false_and, if_false, hget]
  exact ⟨trivial, trivial, trivial, trivial, trivial, trivial⟩

/-- C2 witness: the amended statement at the concrete finalized two-field
state and the utterance yes. -/
theorem C2_completed_replay_witness :
    stDone.completed = true ∧ stDone.confirmed = true ∧
    stDone.fields.length ≤ stDone.current_field_index ∧
    ((invoke stDone inpYes).state = stDone ∧
     (invoke stDone inpYes).outputs = [] ∧
     (invoke stDone inpYes).emittedData = false ∧
     (invoke stDone inpYes).deleted = false ∧
     (invoke stDone inpYes).saves = 0 ∧
     (invoke stDone inpYes).crash = some CrashKind.indexError) :=
  ⟨rfl, rfl, by decide, C2_completed_replay stDone inpYes rfl rfl (by decide)⟩

/-- C8: in the collecting phase (no flag set, current field in range), a
whitespace-only utterance re-emits the current field question verbatim,
invokes neither oracle, attempts no save, and leaves the state unchanged
(tod.py lines 285-314). -/
theorem C8_empty_short_circuit (st : DialogueState) (inp : TurnInput)
    (cf : DialogueField)
    (h1 : st.confirmation_requested = false) (h2 : st.confirmed = false)
    (h3 : st.completed = false)
    (h4 : st.fields.get? st.current_field_index = some cf)
    (h5 : pyStrip inp.query = "") :
    invoke st inp =
      { state := st, outputs := [cf.question], emittedData := false,
        calledValidation := false, calledExtraction := false,
        saves := 0, deleted := false, crash := none } := by
  have hbeq : (pyStrip inp.query == "") = true := by rw [h5]; rfl
  simp only [invoke, h1, Bool.false_and, Bool.false_eq_true, if_false,
    afterConfirm, h2, hbeq, if_true, h4]

/-- C8 witness: the mid-collection state with a blank utterance re-asks the
phone question and touches nothing. -/
theorem C8_empty_short_circuit_witness :
    stHalf.confirmation_requested = false ∧ stHalf.confirmed = false ∧
    stHalf.completed = false ∧ stHalf.fields.get? stHalf.current_field_index = some fPhone ∧
    pyStrip inpBlank.query = "" ∧
    invoke stHalf inpBlank =
      { state := stHalf, outputs := [fPhone.question], emittedData := false,
        calledValidation := false, calledExtraction := false,
        saves := 0, deleted := false, crash := none } :=
  ⟨rfl, rfl, rfl, by decide, by decide,
    C8_empty_short_circuit stHalf inpBlank fPhone rfl rfl rfl (by decide) (by decide)⟩

/-- C6: while awaiting confirmation (confirmation_requested set, confirmed
not set), the stripped and lowered utterance is classified by literal
marker matching (tod.py lines 156-207): a positive marker sets confirmed; a
negative marker (checked only when no positive marker fires, as in the
code) clears confirmation_requested, leaves confirmed false, keeps the
fields and index, and emits the which-field-to-modify prompt; anything else
leaves the state unchanged and re-prompts for an explicit yes/no. -/
theorem C6_confirmation_classification (st : DialogueState) (inp : TurnInput)
    (h1 : st.confirmation_requested = true) (h2 : st.confirmed = false) :
    (posMatch (pyLower (pyStrip inp.query)) = true →
      (invoke st inp).state.confirmed = true) ∧
    (posMatch (pyLower (pyStrip inp.query)) = false →
      negMatch (pyLower (pyStrip inp.query)) = true →
      (invoke st inp).state =
        { st with confirmation_requested := false, confirmed := false } ∧
      (invoke st inp).outputs = [modifyPrompt]) ∧
    (posMatch (pyLower (pyStrip inp.query)) = false →
      negMatch (pyLower (pyStrip inp.query)) = false →
      (invoke st inp).state = st ∧ (invoke st inp).outputs = [confirmPrompt]) := by
  have hcond : (st.confirmation_requested && !st.confirmed) = true := by
    rw [h1, h2]; rfl
  refine ⟨?_, ?_, ?_⟩
  · intro hp
    simp only [invoke, hcond, if_true, hp]
    rw [afterConfirm_confirmed]
  · intro hp hn
    simp only [invoke, hcond, if_true, hp, Bool.false_eq_true, if_false, hn]
    constructor <;> trivial
  · intro hp hn
    simp only [invoke, hcond, if_true, hp, hn, Bool.false_eq_true, if_false]
    constructor <;> trivial

/-- C6 witness: in the concrete awaiting-confirmation state the utterance
no clears confirmation_requested and asks which field to modify. -/
theorem C6_confirmation_classification_witness :
    stAwaiting.confirmation_requested = true ∧ stAwaiting.confirmed = false ∧
    ((invoke stAwaiting inpNo).state =
       { stAwaiting with confirmation_requested := false, confirmed := false } ∧
     (invoke stAwaiting inpNo).outputs = [modifyPrompt]) :=
  ⟨rfl, rfl,
    (C6_confirmation_classification stAwaiting inpNo rfl rfl).2.1 (by decide) (by decide)⟩

/-- C4: in the collecting phase (no lifecycle flag set, current field in
range), the extraction oracle (and the understanding oracle) is invoked
exactly when the utterance is not pure whitespace - independently of the
validation verdict, which is left fully unconstrained here - and whenever
the extraction result stages at least one update, the updates are applied
and the index recomputed even on an invalid-classified turn (tod.py
lines 387-421). -/
theorem C4_extraction_regardless (st : DialogueState) (inp : TurnInput)
    (cf : DialogueField)
    (h1 : st.confirmation_requested = false) (h2 : st.confirmed = false)
    (h3 : st.completed = false)
    (h4 : st.fields.get? st.current_field_index = some cf) :
    (invoke st inp).calledValidation = !(pyStrip inp.query == "") ∧
    (invoke st inp).calledExtraction = !(pyStrip inp.query == "") ∧
    (pyStrip inp.query ≠ "" →
      st.fields.any (hasUpd (inp.extracted.getD [])) = true →
      (invoke st inp).state.fields =
        applyExtraction st.fields (inp.extracted.getD []) ∧
      (invoke st inp).state.current_field_index =
        next_field_index (applyExtraction st.fields (inp.extracted.getD []))) := by
  by_cases he : pyStrip inp.query = ""
  · have hbeq : (pyStrip inp.query == "") = true := by rw [he]; rfl
    simp only [invoke, h1, Bool.false_and, Bool.false_eq_true, if_false,
      afterConfirm, h2, hbeq, if_true, h4, Bool.not_true]
    exact ⟨trivial, trivial, fun hq _ => absurd he hq⟩
  · have hbeq : (pyStrip inp.query == "") = false := beq_eq_false_iff_ne.mpr he
    have hinv : invoke st inp = collectTurn st inp cf := by
      simp only [invoke, h1, Bool.false_and, Bool.false_eq_true, if_false,
        afterConfirm, h2, hbeq, if_false, h4]
    rw [hinv, hbeq]
    simp only [Bool.not_false]
    exact ⟨(collectTurn_oracles st inp cf).1, (collectTurn_oracles st inp cf).2,
      fun _ h => collectTurn_saved st inp cf h⟩

/-- C4 witness: mid-collection, an utterance classified INVALID by the
oracle still triggers extraction, and the extracted phone value is applied,
advancing the index to the field count. -/
theorem C4_extraction_regardless_witness :
    pyStrip inpInvalidButExtracted.query ≠ "" ∧
    is_valid_answer inpInvalidButExtracted.oracleResponse = false ∧
    ((invoke stHalf inpInvalidButExtracted).calledValidation =
       !(pyStrip inpInvalidButExtracted.query == "") ∧
     (invoke stHalf inpInvalidButExtracted).calledExtraction =
       !(pyStrip inpInvalidButExtracted.query == "") ∧
     (pyStrip inpInvalidButExtracted.query ≠ "" →
       stHalf.fields.any (hasUpd (inpInvalidButExtracted.extracted.getD [])) = true →
       (invoke stHalf inpInvalidButExtracted).state.fields =
         applyExtraction stHalf.fields (inpInvalidButExtracted.extracted.getD []) ∧
       (invoke stHalf inpInvalidButExtracted).state.current_field_index =
         next_field_index
           (applyExtraction stHalf.fields (inpInvalidButExtracted.extracted.getD [])))) :=
  ⟨by decide, by decide,
    C4_extraction_regardless stHalf inpInvalidButExtracted fPhone rfl rfl rfl
      (by decide)⟩

/-- C5: in the collecting phase, whenever at least one staged update is
applied, the recomputed current_field_index is exactly the position of the
first field whose value is absent or empty - every earlier field is
satisfied, the field at the index (when in range) is not - and it is the
field count exactly when every field is satisfied (tod.py lines 408-421). -/
theorem C5_index_invariant (st : DialogueState) (inp : TurnInput)
    (cf : DialogueField)
    (h1 : st.confirmation_requested = false) (h2 : st.confirmed = false)
    (h3 : st.completed = false)
    (h4 : st.fields.get? st.current_field_index = some cf)
    (h5 : pyStrip inp.query ≠ "")
    (h6 : st.fields.any (hasUpd (inp.extracted.getD [])) = true) :
    (invoke st inp).state.fields =
      applyExtraction st.fields (inp.extracted.getD []) ∧
    (invoke st inp).state.current_field_index =
      next_field_index ((invoke st inp).state.fields) ∧
    (∀ j g, j < (invoke st inp).state.current_field_index →
      (invoke st inp).state.fields.get? j = some g → pyTruthy g.value = true) ∧
    ((invoke st inp).state.current_field_index <
        (invoke st inp).state.fields.length →
      ∃ g, (invoke st inp).state.fields.get?
          ((invoke st inp).state.current_field_index) = some g ∧
        pyTruthy g.value = false) ∧
    ((invoke st inp).state.current_field_index =
        (invoke st inp).state.fields.length ↔
      allTruthy ((invoke st inp).state.fields) = true) := by
  have hbeq : (pyStrip inp.query == "") = false := beq_eq_false_iff_ne.mpr h5
  have hinv : invoke st inp = collectTurn st inp cf := by
    simp only [invoke, h1, Bool.false_and, Bool.false_eq_true, if_false,
      afterConfirm, h2, hbeq, if_false, h4]
  obtain ⟨hfld, hidx⟩ := collectTurn_saved st inp cf h6
  rw [hinv, hfld, hidx]
  refine ⟨rfl, rfl, ?_, ?_, ?_⟩
  · intro j g hj hg
    exact truthy_below_next_field_index _ j g hj hg
  · intro hlt
    exact untruthy_at_next_field_index _ hlt
  · exact next_field_index_eq_length_iff _

/-- C5 witness: from the fresh two-field state, one utterance whose
extraction fills both fields advances the index from 0 to 2, the field
count, in a single turn. -/
theorem C5_index_invariant_witness :
    stFresh.fields.any (hasUpd (inpBoth.extracted.getD [])) = true ∧
    stFresh.current_field_index = 0 ∧
    ((invoke stFresh inpBoth).state.fields =
       applyExtraction stFresh.fields (inpBoth.extracted.getD []) ∧
     (invoke stFresh inpBoth).state.current_field_index =
       next_field_index ((invoke stFresh inpBoth).state.fields) ∧
     (∀ j g, j < (invoke stFresh inpBoth).state.current_field_index →
       (invoke stFresh inpBoth).state.fields.get? j = some g →
         pyTruthy g.value = true) ∧
     ((invoke stFresh inpBoth).state.current_field_index <
         (invoke stFresh inpBoth).state.fields.length →
       ∃ g, (invoke stFresh inpBoth).state.fields.get?
           ((invoke stFresh inpBoth).state.current_field_index) = some g ∧
         pyTruthy g.value = false) ∧
     ((invoke stFresh inpBoth).state.current_field_index =
         (invoke stFresh inpBoth).state.fields.length ↔
       allTruthy ((invoke stFresh inpBoth).state.fields) = true)) ∧
    (invoke stFresh inpBoth).state.current_field_index = 2 :=
  ⟨by decide, rfl,
    C5_index_invariant stFresh inpBoth fName rfl rfl rfl (by decide) (by decide)
      (by decide),
    by decide⟩

/-- C3 counterexample: in a plain collecting turn (not a correction flow -
the phone field is still outstanding), the already-collected name John is
overwritten with Bob because the extraction result names the field: the
controller applies every truthy extracted value without checking whether
the field already holds one (tod.py lines 403-412). -/
theorem C3_counterexample :
    stHalf.fields.get? 0 = some { fName with value := some "John" } ∧
    (invoke stHalf inpOverwrite).state.fields.get? 0 =
      some { fName with value := some "Bob" } := by
  decide

/-- C3 (amended): on every turn whatsoever, a field keeps its value unless
the extraction result explicitly maps that field name to a non-empty
value; the protection of already-valued fields is otherwise delegated to
the extraction prompt (prompts.py rule 6), not enforced by the
controller. -/
theorem C3_frame (st : DialogueState) (inp : TurnInput) (i : Nat)
    (f : DialogueField) (hf : st.fields.get? i = some f)
    (hno : hasUpd (inp.extracted.getD []) f = false) :
    (invoke st inp).state.fields.get? i = some f := by
  rcases invoke_fields_cases st inp with h | h
  · rw [h, hf]
  · rw [h]
    unfold applyExtraction
    rw [List.get?_map, hf]
    simp [hno]

/-- C3 witness: the valued name field survives a turn whose extraction only
returns the phone value. -/
theorem C3_frame_witness :
    stHalf.fields.get? 0 = some { fName with value := some "John" } ∧
    hasUpd (inpInvalidButExtracted.extracted.getD [])
      { fName with value := some "John" } = false ∧
    (invoke stHalf inpInvalidButExtracted).state.fields.get? 0 =
      some { fName with value := some "John" } :=
  ⟨by decide, by decide,
    C3_frame stHalf inpInvalidButExtracted 0 { fName with value := some "John" }
      (by decide) (by decide)⟩

/-- C9: the sentinel value "refused" is exactly as satisfying as any other
non-empty answer: the index recomputation of tod.py lines 414-420 and the
all-fields-satisfied test of tod.py line 243 give the same result whether a
field holds "refused" or any non-empty real answer. -/
theorem C9_refusal_satisfies (fs : List DialogueField) (i : Nat)
    (f : DialogueField) (v : String) (hv : v ≠ "") :
    next_field_index (fs.set i { f with value := some "refused" }) =
      next_field_index (fs.set i { f with value := some v }) ∧
    allTruthy (fs.set i { f with value := some "refused" }) =
      allTruthy (fs.set i { f with value := some v }) := by
  have hrv : pyTruthy (some "refused") = true := rfl
  have hvv : pyTruthy (some v) = true := by
    simp only [pyTruthy, Bool.not_eq_true', beq_eq_false_iff_ne]
    exact hv
  induction fs generalizing i with
  | nil => exact ⟨rfl, rfl⟩
  | cons a t ih =>
    cases i with
    | zero =>
      constructor
      · simp only [List.set, next_field_index, hrv, hvv]
      · simp only [List.set, allTruthy, List.all_cons, hrv, hvv]
    | succ j =>
      obtain ⟨ih1, ih2⟩ := ih j
      constructor
      · simp only [List.set, next_field_index]
        rw [ih1]
      · simp only [List.set, allTruthy, List.all_cons] at ih2 ⊢
        rw [ih2]

/-- C9 witness: replacing the first field value by "refused" or by the real
answer x yields the same recomputed index and the same satisfied-all
verdict. -/
theorem C9_refusal_satisfies_witness :
    "x" ≠ "" ∧
    (next_field_index ([fName, fPhone].set 0 { fName with value := some "refused" }) =
       next_field_index ([fName, fPhone].set 0 { fName with value := some "x" }) ∧
     allTruthy ([fName, fPhone].set 0 { fName with value := some "refused" }) =
       allTruthy ([fName, fPhone].set 0 { fName with value := some "x" })) :=
  ⟨by decide, C9_refusal_satisfies [fName, fPhone] 0 fName "x" (by decide)⟩

/-- C10: finalization is not atomic with cleanup.  In a confirmed,
not-yet-completed, all-satisfied state, a turn whose storage delete raises
still sets completed, still emits the completion summary and the
collected-data payload, and then lets the exception escape; with a healthy
delete the same state finalizes cleanly.  In contrast a delete-crash can
only come from a raising delete - state saves, whose failures
_save_dialogue_state swallows (tod.py lines 62-68), never produce one, the
saveRaises flag being unconstrained here. -/
theorem C10_unguarded_delete (st : DialogueState) (inp inp' : TurnInput)
    (h1 : st.confirmed = true) (h2 : st.completed = false)
    (h3 : allTruthy st.fields = true)
    (hd : inp.deleteRaises = true) (hd' : inp'.deleteRaises = false) :
    ((invoke st inp).crash = some CrashKind.deleteError ∧
     (invoke st inp).state.completed = true ∧
     (invoke st inp).outputs = [completedPrefix ++ generate_summary st.fields] ∧
     (invoke st inp).emittedData = true ∧
     (invoke st inp).deleted = false) ∧
    ((invoke st inp').crash = none ∧ (invoke st inp').deleted = true ∧
     (invoke st inp').state.completed = true) ∧
    (∀ (st₂ : DialogueState) (inp₂ : TurnInput), inp₂.deleteRaises = false →
      (invoke st₂ inp₂).crash ≠ some CrashKind.deleteError) := by
  have hcond : (st.confirmation_requested && !st.confirmed) = false := by
    rw [h1]; simp
  have hfin : (st.confirmed && !st.completed && allTruthy st.fields) = true := by
    rw [h1, h2, h3]; rfl
  refine ⟨?_, ?_, ?_⟩
  · simp only [invoke, hcond, Bool.false_eq_true, if_false, afterConfirm, hfin,
      if_true, hd]
    refine ⟨?_, ?_, ?_, ?_, ?_⟩ <;> trivial
  · simp only [invoke, hcond, Bool.false_eq_true, if_false, afterConfirm, hfin,
      if_true, hd']
    refine ⟨?_, ?_, ?_⟩ <;> trivial
  · intro st₂ inp₂ hdel hcontra
    have := invoke_crash_delete st₂ inp₂ hcontra
    rw [hdel] at this
    exact Bool.false_ne_true this

/-- C10 witness: the concrete confirmed state with a raising delete crashes
after completing and emitting, while the healthy delete finalizes. -/
theorem C10_unguarded_delete_witness :
    stConfirmedPending.confirmed = true ∧ stConfirmedPending.completed = false ∧
    allTruthy stConfirmedPending.fields = true ∧
    inpYesDel.deleteRaises = true ∧ inpYes.deleteRaises = false ∧
    (((invoke stConfirmedPending inpYesDel).crash = some CrashKind.deleteError ∧
      (invoke stConfirmedPending inpYesDel).state.completed = true ∧
      (invoke stConfirmedPending inpYesDel).outputs =
        [completedPrefix ++ generate_summary stConfirmedPending.fields] ∧
      (invoke stConfirmedPending inpYesDel).emittedData = true ∧
      (invoke stConfirmedPending inpYesDel).deleted = false) ∧
     ((invoke stConfirmedPending inpYes).crash = none ∧
      (invoke stConfirmedPending inpYes).deleted = true ∧
      (invoke stConfirmedPending inpYes).state.completed = true) ∧
     (∀ (st₂ : DialogueState) (inp₂ : TurnInput), inp₂.deleteRaises = false →
       (invoke st₂ inp₂).crash ≠ some CrashKind.deleteError)) :=
  ⟨rfl, rfl, by decide, rfl, rfl,
    C10_unguarded_delete stConfirmedPending inpYesDel inpYes rfl rfl (by decide)
      rfl rfl⟩

/-- C7: on the very first turn (index 0, no field valued), an utterance
containing an intent keyword is forced invalid with the
expressing-intent reason regardless of the understanding oracle reply
(tod.py lines 356-366), and when extraction stages no update the turn
leaves the state unchanged and answers with the softened redirect
"I understand you want to be contacted. To help you better, " followed by
the first field question (tod.py lines 540-542). -/
theorem C7_intent_override (st : DialogueState) (inp : TurnInput)
    (f0 : DialogueField)
    (h1 : st.confirmation_requested = false)
    (h2 : st.current_field_index = 0)
    (h3 : (st.fields.any fun f => pyTruthy f.value) = false)
    (h4 : st.fields.get? 0 = some f0)
    (h5 : pyStrip inp.query ≠ "")
    (h6 : intentMatch (pyLower inp.query) = true)
    (h7 : st.fields.any (hasUpd (inp.extracted.getD [])) = false) :
    (invoke st inp).state = st ∧
    (invoke st inp).outputs =
      ["I understand you want to be contacted. To help you better, " ++
        f0.question] := by
  have hbeq : (pyStrip inp.query == "") = false := beq_eq_false_iff_ne.mpr h5
  have hallf : allTruthy st.fields = false := by
    cases hfs : st.fields with
    | nil => rw [hfs] at h4; simp at h4
    | cons a t =>
      rw [hfs] at h3
      simp only [allTruthy, List.all_cons]
      cases hpa : pyTruthy a.value with
      | true => rw [List.any_cons, hpa] at h3; simp at h3
      | false => simp [hpa]
  have hfin : (st.confirmed && !st.completed && allTruthy st.fields) = false := by
    rw [hallf]; simp
  have hget : st.fields.get? st.current_field_index = some f0 := by
    rw [h2]; exact h4
  have hinv : invoke st inp = collectTurn st inp f0 := by
    simp only [invoke, h1, Bool.false_and, Bool.false_eq_true, if_false,
      afterConfirm, hfin, if_false, hget, hbeq]
  have hfirst : (st.current_field_index == 0) = true := by
    rw [h2]; rfl
  have hsw : pyStartsWith
      "INVALID: User is expressing intent to be contacted, starting information collection"
      "INVALID:" = true := by decide
  have hre : pyStrip (pyDropPre
      "INVALID: User is expressing intent to be contacted, starting information collection"
      "INVALID:") =
      "User is expressing intent to be contacted, starting information collection" := by
    decide
  have hin : pyIn "expressing intent to be contacted"
      "User is expressing intent to be contacted, starting information collection" =
      true := by decide
  rw [hinv]
  simp only [collectTurn, hfirst, h3, h6, h7, Bool.not_false, Bool.and_true,
    Bool.true_and, Bool.and_self, Bool.false_eq_true, if_false, if_true, hsw,
    hre, hin]
  constructor <;> trivial

/-- C7 witness: spec Scenario F at the fresh two-field state, where the
oracle even classified the utterance as valid, yet the override fires and
the softened redirect into the first question is emitted. -/
theorem C7_intent_override_witness :
    stFresh.confirmation_requested = false ∧ stFresh.current_field_index = 0 ∧
    (stFresh.fields.any fun f => pyTruthy f.value) = false ∧
    stFresh.fields.get? 0 = some fName ∧
    pyStrip inpIntent.query ≠ "" ∧
    intentMatch (pyLower inpIntent.query) = true ∧
    is_valid_answer inpIntent.oracleResponse = true ∧
    stFresh.fields.any (hasUpd (inpIntent.extracted.getD [])) = false ∧
    ((invoke stFresh inpIntent).state = stFresh ∧
     (invoke stFresh inpIntent).outputs =
       ["I understand you want to be contacted. To help you better, " ++
         fName.question]) :=
  ⟨rfl, rfl, by decide, by decide, by decide, by decide, by decide, by decide,
    C7_intent_override stFresh inpIntent fName rfl rfl (by decide) (by decide)
      (by decide) (by decide) (by decide)⟩
